import Mathlib

/-!
Verification of the ESP32 WiFi provisioning library
(src/ESP32_WiFiProvisioner.cpp, src/ESP32_WiFiProvisioner.h) against its
natural-language specification.

The C++ code is shallowly embedded: the credential store, the HTTP request
handlers and the provisioning state machine become pure Lean functions.
External capabilities are passed in as explicit inputs: whether an NVS
open call succeeds, the result of a radio join attempt, the SHA-256 digest
primitive (an abstract function parameter), clock readings from millis(),
and the HTTP requests delivered by the transport during one tick.
-/

namespace WiFiProv

/-- 2 ^ 32, the modulus of the uint32 arithmetic used by the code. -/
def U32 : Nat := 4294967296

/-- 2 ^ 8, the modulus of the uint8 arithmetic used for the retry counter. -/
def U8 : Nat := 256

/-- Wraparound-safe uint32 subtraction, the unsigned C subtraction used in
expressions such as millis() - _lastRetryTime. -/
def u32sub (a b : Nat) : Nat :=
  (a % U32 + U32 - b % U32) % U32

/-- The persisted NVS namespace "wifiprov". One field per key written by the
code: ssid, password, reset_pwd, boot_count, boot_time. A missing key reads
back as the default of getString / getUInt, so the cleared store is the
record of empty strings and zeros. -/
structure Nvs where
  ssid : String := ""
  password : String := ""
  resetPwd : String := ""
  bootCount : Nat := 0
  bootTime : Nat := 0
deriving DecidableEq

/-- The credential-store view of the provisioner: the persisted namespace
plus the cached members _storedSSID, _storedPassword, _resetPassword. -/
structure CredState where
  nvs : Nvs := {}
  storedSSID : String := ""
  storedPassword : String := ""
  resetPassword : String := ""
deriving DecidableEq

/-- loadCredentials: open the namespace read-only (openOk is the result of
_preferences.begin), read ssid and password into the cache, and report
whether a non-empty ssid was found. A failed open returns false (treated by
callers as no credentials present) without touching the cache. -/
def loadCredentials (openOk : Bool) (s : CredState) : CredState × Bool :=
  if openOk then
    let s' := { s with storedSSID := s.nvs.ssid, storedPassword := s.nvs.password }
    (s', decide (0 < s'.storedSSID.length))
  else (s, false)

/-- saveCredentials: open the namespace for writing, persist ssid and
password, update the cache, return true; a failed open returns false with
nothing written. -/
def saveCredentials (openOk : Bool) (ssid password : String) (s : CredState) :
    CredState × Bool :=
  if openOk then
    ({ s with nvs := { s.nvs with ssid := ssid, password := password },
              storedSSID := ssid, storedPassword := password }, true)
  else (s, false)

/-- loadResetPassword: read the stored reset-secret digest into the cache;
report whether one is present. -/
def loadResetPassword (openOk : Bool) (s : CredState) : CredState × Bool :=
  if openOk then
    let s' := { s with resetPassword := s.nvs.resetPwd }
    (s', decide (0 < s'.resetPassword.length))
  else (s, false)

/-- saveResetPassword: hash the supplied password with the digest
capability and persist the digest. hashFn stands for the mbedtls SHA-256
hex digest, an external capability the code only consumes. -/
def saveResetPassword (hashFn : String → String) (openOk : Bool)
    (password : String) (s : CredState) : CredState × Bool :=
  if openOk then
    let h := hashFn password
    ({ s with nvs := { s.nvs with resetPwd := h }, resetPassword := h }, true)
  else (s, false)

/-- clearAllCredentials: clear the whole namespace when the open succeeds,
and blank the three cached strings unconditionally. The C++ function
returns void: no success or failure indication reaches the caller. -/
def clearAllCredentials (openOk : Bool) (s : CredState) : CredState :=
  { nvs := if openOk then {} else s.nvs,
    storedSSID := "", storedPassword := "", resetPassword := "" }

/-- The public clearCredentials(bool reboot): calls clearAllCredentials and
returns true unconditionally; the second component is the returned Bool and
the third reports whether ESP.restart() was reached (the reboot argument). -/
def clearCredentials (openOk : Bool) (reboot : Bool) (s : CredState) :
    CredState × Bool × Bool :=
  (clearAllCredentials openOk s, true, reboot)

/-- verifyPassword: compare the digest of the supplied password against the
stored digest. -/
def verifyPassword (hashFn : String → String) (password hash : String) : Bool :=
  hashFn password == hash

/-- The configuration tunables read by the modelled code paths
(WiFiProvisionerConfig fields that the state machine and handlers use). -/
structure Config where
  apTimeout : Nat := 300000
  maxRetries : Nat := 10
  retryDelay : Nat := 3000
  autoWipeOnMaxRetries : Bool := true
  hardwareResetEnabled : Bool := false
  resetButtonDuration : Nat := 5000
  httpResetEnabled : Bool := false
  httpResetAuthRequired : Bool := false
  doubleRebootDetectEnabled : Bool := false
  doubleRebootWindow : Nat := 10000
deriving DecidableEq

/-- An HTTP response: status code and body text. -/
structure HttpResponse where
  status : Nat
  body : String
deriving DecidableEq

/-- Outcome of handleReset: the response, the credential store afterwards,
whether the reset callback fired, and whether ESP.restart() was reached. -/
structure ResetOutcome where
  response : HttpResponse
  creds : CredState
  resetCallbackFired : Bool
  restarted : Bool
deriving DecidableEq

/-- handleReset, the POST /reset handler. clearOpenOk is the NVS open
result seen by the clearAllCredentials call inside performReset. -/
def handleReset (hashFn : String → String) (cfg : Config)
    (password : String) (clearOpenOk : Bool) (s : CredState) : ResetOutcome :=
  if !cfg.httpResetEnabled then
    ⟨⟨403, "Reset disabled"⟩, s, false, false⟩
  else if cfg.httpResetAuthRequired ∧ password.length = 0 then
    ⟨⟨401, "Password required"⟩, s, false, false⟩
  else if cfg.httpResetAuthRequired ∧ ¬verifyPassword hashFn password s.resetPassword then
    ⟨⟨401, "Invalid password"⟩, s, false, false⟩
  else
    ⟨⟨200, "Resetting device..."⟩, clearAllCredentials clearOpenOk s, true, true⟩

/-- Outcome of handleSave: the response, the credential store afterwards,
and whether ESP.restart() was reached. -/
structure SaveOutcome where
  response : HttpResponse
  creds : CredState
  restarted : Bool
deriving DecidableEq

/-- handleSave, the POST /save handler. ssid, password and resetPwd are the
form fields; credOpenOk and resetOpenOk are the NVS open results seen by
saveCredentials and saveResetPassword. -/
def handleSave (hashFn : String → String) (cfg : Config)
    (ssid password resetPwd : String) (credOpenOk resetOpenOk : Bool)
    (s : CredState) : SaveOutcome :=
  if ssid.length = 0 then
    ⟨⟨400, "SSID is required"⟩, s, false⟩
  else
    let r := saveCredentials credOpenOk ssid password s
    if !r.2 then
      ⟨⟨500, "Failed to save credentials"⟩, r.1, false⟩
    else
      let s2 :=
        if cfg.httpResetAuthRequired ∧ 0 < resetPwd.length then
          (saveResetPassword hashFn resetOpenOk resetPwd r.1).1
        else r.1
      ⟨⟨200, "Configuration saved. Rebooting..."⟩, s2, true⟩

/-- One network as returned by the scan capability WiFi.scanNetworks. -/
structure Network where
  ssid : String
  rssi : Int
  secured : Bool
deriving DecidableEq

/-- The JSON object the scan handler emits for one network. -/
def networkJson (n : Network) : String :=
  "\x7b\"ssid\":\"" ++ n.ssid ++ "\",\"rssi\":" ++ toString n.rssi ++
    ",\"secure\":" ++ (if n.secured then "true" else "false") ++ "\x7d"

/-- The body-building loop of handleScan: for i from 0, a comma before
every entry except the first. -/
def scanJsonAux : Nat → List Network → String
  | _, [] => ""
  | i, n :: rest =>
      (if 0 < i then "," else "") ++ networkJson n ++ scanJsonAux (i + 1) rest

/-- The full JSON array body produced by handleScan. -/
def scanJson (nets : List Network) : String :=
  "[" ++ scanJsonAux 0 nets ++ "]"

/-- Outcome of handleScan: status, content type, body, and whether
WiFi.scanDelete() ran (the scan results were discarded). -/
structure ScanOutcome where
  status : Nat
  contentType : String
  body : String
  scanResultsDeleted : Bool
deriving DecidableEq

/-- handleScan, the GET /scan handler, applied to the network list the
scan capability returned. -/
def handleScan (nets : List Network) : ScanOutcome :=
  ⟨200, "application/json", scanJson nets, true⟩

/-- Comma-separated join, the shape the spec ascribes to the /scan body:
one entry per element, in order. -/
def joinComma : List String → String
  | [] => ""
  | [a] => a
  | a :: b :: rest => a ++ "," ++ joinComma (b :: rest)

/-- checkDoubleReboot: read counter and timestamp, increment and persist
counter plus current time, then erase everything and zero the counter when
this is at least the second boot inside the window. openOk is the result
of the outer _preferences.begin, clearOpenOk the one seen by the nested
clearAllCredentials. -/
def checkDoubleReboot (cfg : Config) (openOk clearOpenOk : Bool) (now : Nat)
    (s : CredState) : CredState :=
  if openOk then
    let lastBootTime := s.nvs.bootTime
    let bootCount := (s.nvs.bootCount + 1) % U32
    let s1 := { s with nvs := { s.nvs with bootCount := bootCount, bootTime := now % U32 } }
    if 2 ≤ bootCount ∧ u32sub now lastBootTime < cfg.doubleRebootWindow then
      let s2 := clearAllCredentials clearOpenOk s1
      { s2 with nvs := { s2.nvs with bootCount := 0 } }
    else s1
  else s

/-- The ProvisionerState enum. -/
inductive PState
  | init
  | loadConfig
  | connecting
  | connected
  | retryWait
  | provisioning
  | provisioningActive
deriving DecidableEq

/-- The mutable members of ESP32_WiFiProvisioner that the modelled code
paths touch, together with flags recording which services are running
(AP, wildcard DNS, web server) and whether ESP.restart() has been reached
(after which the device does nothing until it reboots). -/
structure Machine where
  state : PState
  retryCount : Nat
  lastRetryTime : Nat
  apStartTime : Nat
  buttonPressed : Bool
  buttonPressStart : Nat
  creds : CredState
  apActive : Bool
  dnsActive : Bool
  webActive : Bool
  restarted : Bool
deriving DecidableEq

/-- One HTTP request as dispatched by WebServer route matching. savePost
carries the three form fields of POST /save, resetPost the password field
of POST /reset. -/
inductive Request
  | root
  | scan (nets : List Network)
  | savePost (ssid password resetPwd : String)
  | saveGet
  | resetPost (password : String)
  | status
  | other (path : String)
deriving DecidableEq

/-- The environment inputs consumed during one loop() tick: the clock,
the button level, radio results, the NVS open results seen by each storage
call, and at most one pending HTTP request. -/
structure Env where
  now : Nat
  buttonDown : Bool
  connectOk : Bool
  linkUp : Bool
  loadOpenOk : Bool
  saveOpenOk : Bool
  resetSecretOpenOk : Bool
  clearOpenOk : Bool
  resetPwdLoadOk : Bool
  request : Option Request
deriving DecidableEq

/-- The callbacks fired during one tick. -/
structure Events where
  connectedFired : Bool := false
  failedFired : Option Nat := none
  apModeFired : Bool := false
  resetFired : Bool := false
deriving DecidableEq

/-- performReset as it acts on the machine: fire the reset callback
(recorded by the caller), erase all credentials, restart. -/
def performResetM (clearOpenOk : Bool) (m : Machine) : Machine :=
  { m with creds := clearAllCredentials clearOpenOk m.creds, restarted := true }

/-- checkHardwareReset: edge-detect the button, fire performReset once it
has been held for the configured duration. Second component is true when
the reset fired. -/
def checkHardwareReset (cfg : Config) (e : Env) (m : Machine) : Machine × Bool :=
  if e.buttonDown ∧ ¬m.buttonPressed then
    ({ m with buttonPressed := true, buttonPressStart := e.now % U32 }, false)
  else if e.buttonDown ∧ m.buttonPressed then
    if cfg.resetButtonDuration ≤ u32sub e.now m.buttonPressStart then
      (performResetM e.clearOpenOk m, true)
    else (m, false)
  else if ¬e.buttonDown ∧ m.buttonPressed then
    ({ m with buttonPressed := false }, false)
  else (m, false)

/-- Dispatch of one request by the provisioning-mode web server
(routes: /, /scan, POST /save, GET /save, POST /reset when enabled,
everything else a 302 redirect). Only /save and /reset touch state. -/
def serveProvisioning (hashFn : String → String) (cfg : Config) (e : Env)
    (r : Request) (m : Machine) : Machine × Events :=
  match r with
  | .savePost ssid password resetPwd =>
      let out := handleSave hashFn cfg ssid password resetPwd
        e.saveOpenOk e.resetSecretOpenOk m.creds
      ({ m with creds := out.creds, restarted := out.restarted }, {})
  | .resetPost password =>
      if cfg.httpResetEnabled then
        let out := handleReset hashFn cfg password e.clearOpenOk m.creds
        ({ m with creds := out.creds, restarted := out.restarted },
          { resetFired := out.resetCallbackFired })
      else (m, {})
  | _ => (m, {})

/-- Dispatch of one request by the connected-mode web server (routes:
POST /reset and GET /status; everything else is a WebServer 404). -/
def serveConnected (hashFn : String → String) (cfg : Config) (e : Env)
    (r : Request) (m : Machine) : Machine × Events :=
  match r with
  | .resetPost password =>
      let out := handleReset hashFn cfg password e.clearOpenOk m.creds
      ({ m with creds := out.creds, restarted := out.restarted },
        { resetFired := out.resetCallbackFired })
  | _ => (m, {})

/-- The switch on _state inside loop(): one handleStateXxx call. -/
def stepState (hashFn : String → String) (cfg : Config) (m1 : Machine)
    (e : Env) : Machine × Events :=
  match m1.state with
  | .init => ({ m1 with state := .loadConfig }, {})
  | .loadConfig =>
      let lc := loadCredentials e.loadOpenOk m1.creds
      if lc.2 then
        ({ m1 with creds := lc.1, retryCount := 0, state := .connecting }, {})
      else
        ({ m1 with creds := lc.1, state := .provisioning }, {})
  | .connecting =>
      if e.connectOk then
        ({ m1 with state := .connected,
                   webActive := m1.webActive || cfg.httpResetEnabled },
          { connectedFired := true })
      else
        ({ m1 with state := .retryWait, lastRetryTime := e.now % U32 }, {})
  | .connected =>
      let served :=
        match e.request with
        | some r => if m1.webActive then serveConnected hashFn cfg e r m1 else (m1, {})
        | none => (m1, {})
      let m2 := served.1
      if m2.restarted then served else
      if ¬e.linkUp then
        ({ m2 with retryCount := 0, state := .connecting }, served.2)
      else served
  | .retryWait =>
      if cfg.retryDelay ≤ u32sub e.now m1.lastRetryTime then
        let rc := (m1.retryCount + 1) % U8
        if cfg.maxRetries ≤ rc then
          if cfg.autoWipeOnMaxRetries then
            ({ m1 with retryCount := rc,
                       creds := clearAllCredentials e.clearOpenOk m1.creds,
                       state := .provisioning },
              { failedFired := some rc })
          else
            ({ m1 with retryCount := 0, state := .connecting },
              { failedFired := some rc })
        else
          ({ m1 with retryCount := rc, state := .connecting }, {})
      else (m1, {})
  | .provisioning =>
      let creds' :=
        if cfg.httpResetAuthRequired then (loadResetPassword e.resetPwdLoadOk m1.creds).1
        else m1.creds
      ({ m1 with creds := creds', apActive := true, dnsActive := true,
                 webActive := true, apStartTime := e.now % U32,
                 state := .provisioningActive },
        { apModeFired := true })
  | .provisioningActive =>
      let served :=
        match e.request with
        | some r => if m1.webActive then serveProvisioning hashFn cfg e r m1 else (m1, {})
        | none => (m1, {})
      let m2 := served.1
      if m2.restarted then served else
      if 0 < cfg.apTimeout ∧ cfg.apTimeout ≤ u32sub e.now m2.apStartTime then
        let m3 := { m2 with apActive := false, dnsActive := false, webActive := false }
        if m3.creds.storedSSID ≠ "" then
          ({ m3 with state := .connecting }, served.2)
        else (m3, served.2)
      else served

/-- One loop() tick: hardware-reset check first, then one state-machine
step; a restarted machine does nothing further. -/
def tick (hashFn : String → String) (cfg : Config) (m : Machine) (e : Env) :
    Machine × Events :=
  if m.restarted then (m, {}) else
  let hw := if cfg.hardwareResetEnabled then checkHardwareReset cfg e m
            else (m, false)
  let m1 := hw.1
  if m1.restarted then (m1, { resetFired := true }) else
  stepState hashFn cfg m1 e

/-- The machine right after the constructor runs: all counters zero, no
services running, state STATE_INIT, with nvs the persisted contents the
device finds at power-up. -/
def initialMachine (nvs : Nvs) : Machine :=
  { state := .init, retryCount := 0, lastRetryTime := 0, apStartTime := 0,
    buttonPressed := false, buttonPressStart := 0,
    creds := { nvs := nvs, storedSSID := "", storedPassword := "",
               resetPassword := "" },
    apActive := false, dnsActive := false, webActive := false,
    restarted := false }

/-- begin(): run double-reboot detection when enabled, then enter
STATE_LOAD_CONFIG. -/
def beginProv (cfg : Config) (openOk clearOpenOk : Bool) (now : Nat)
    (m : Machine) : Machine :=
  let creds :=
    if cfg.doubleRebootDetectEnabled then
      checkDoubleReboot cfg openOk clearOpenOk now m.creds
    else m.creds
  { m with creds := creds, state := .loadConfig }

/-- The machines reachable by any sequence of ticks from a startup
(constructor followed by begin(), over any persisted contents, clock
reading and NVS open results). -/
inductive Reachable (hashFn : String → String) (cfg : Config) : Machine → Prop
  | start (nvs : Nvs) (openOk clearOpenOk : Bool) (now : Nat) :
      Reachable hashFn cfg (beginProv cfg openOk clearOpenOk now (initialMachine nvs))
  | step (m : Machine) (e : Env) :
      Reachable hashFn cfg m → Reachable hashFn cfg (tick hashFn cfg m e).1

/-- The environment of a tick in which the radio join always fails, no
button is pressed, no HTTP request is pending and every NVS open succeeds;
t is the millis() reading. -/
def envAt (t : Nat) : Env :=
  { now := t, buttonDown := false, connectOk := false, linkUp := true,
    loadOpenOk := true, saveOpenOk := true, resetSecretOpenOk := true,
    clearOpenOk := true, resetPwdLoadOk := true, request := none }

/-- One failed connection round: a tick in STATE_CONNECTING whose join
fails (at millis() = 0), followed by a tick in STATE_RETRY_WAIT taken
after retry_delay has elapsed. -/
def failRound (hashFn : String → String) (cfg : Config) (m : Machine) : Machine :=
  (tick hashFn cfg (tick hashFn cfg m (envAt 0)).1 (envAt cfg.retryDelay)).1

/-- k failed connection rounds in sequence. -/
def failRounds (hashFn : String → String) (cfg : Config) (m : Machine) :
    Nat → Machine
  | 0 => m
  | k + 1 => failRound hashFn cfg (failRounds hashFn cfg m k)

/-- The strengthened retry-counter invariant: the counter never exceeds
max_retries; moreover, while the device has not restarted, it is strictly
below max_retries in the connect and retry states (and in the transient
startup states), and in the provisioning states whenever stored
credentials are present. -/
def RetryInv (cfg : Config) (m : Machine) : Prop :=
  m.retryCount ≤ cfg.maxRetries ∧
  (m.restarted = false →
    ((m.state = .init ∨ m.state = .loadConfig ∨ m.state = .connecting ∨
        m.state = .retryWait) → m.retryCount < cfg.maxRetries) ∧
    ((m.state = .provisioning ∨ m.state = .provisioningActive) →
        m.creds.storedSSID ≠ "" → m.retryCount < cfg.maxRetries))

/-! ## Helper lemmas -/

theorem string_length_eq_zero_iff (s : String) : s.length = 0 ↔ s = "" := by
  cases s with
  | mk data =>
    cases data with
    | nil => simp [String.length]
    | cons c cs => simp [String.length, String.ext_iff]

theorem string_length_ne_zero (s : String) (h : s ≠ "") : ¬s.length = 0 := by
  intro h0
  exact h ((string_length_eq_zero_iff s).mp h0)

theorem scanJsonAux_shift (l : List Network) :
    ∀ i j, 0 < i → 0 < j → scanJsonAux i l = scanJsonAux j l := by
  induction l with
  | nil => intro i j _ _; rfl
  | cons n rest ih =>
      intro i j hi hj
      simp only [scanJsonAux, if_pos hi, if_pos hj]
      rw [ih (i + 1) (j + 1) (by omega) (by omega)]

theorem scanJsonAux_zero_eq (l : List Network) :
    scanJsonAux 0 l = joinComma (l.map networkJson) := by
  induction l with
  | nil => rfl
  | cons n rest ih =>
      cases rest with
      | nil => simp [scanJsonAux, joinComma]
      | cons r rs =>
          have h1 : scanJsonAux 1 (r :: rs) = "," ++ scanJsonAux 0 (r :: rs) := by
            simp only [scanJsonAux]
            rw [scanJsonAux_shift rs 2 1 (by omega) (by omega)]
            simp [String.append_assoc]
          simp only [scanJsonAux, List.map_cons, joinComma] at *
          rw [show (0 + 1 : Nat) = 1 from rfl] at *
          rw [h1, ← ih]
          simp [String.append_assoc]

/-! ## Claims -/

/-- Claim C6, counterexample: saveCredentials accepts an empty ssid and
reports success, but loadCredentials afterwards reports that no
credentials are present, so the stated roundtrip fails at ssid = "". -/
theorem save_load_roundtrip_counterexample :
    (saveCredentials true "" "secret" {}).2 = true ∧
    (loadCredentials true (saveCredentials true "" "secret" {}).1).2 = false := by
  constructor <;> rfl

/-- Claim C6 (amended): after a successful save of a non-empty ssid,
a load whose open succeeds reports credentials present and yields exactly
the saved ssid and secret. -/
theorem save_then_load_roundtrip (openOk : Bool) (ssid password : String)
    (s : CredState)
    (hsave : (saveCredentials openOk ssid password s).2 = true)
    (hssid : ssid ≠ "") :
    (loadCredentials true (saveCredentials openOk ssid password s).1).2 = true ∧
    (loadCredentials true (saveCredentials openOk ssid password s).1).1.storedSSID
      = ssid ∧
    (loadCredentials true (saveCredentials openOk ssid password s).1).1.storedPassword
      = password := by
  cases openOk with
  | false => simp [saveCredentials] at hsave
  | true =>
      have hlen : ¬ssid.length = 0 := string_length_ne_zero ssid hssid
      refine ⟨?_, rfl, rfl⟩
      simp [saveCredentials, loadCredentials]
      omega

/-- Claim C6 witness: the amended roundtrip at ssid "home", secret "pw". -/
theorem save_then_load_roundtrip_witness :
    (loadCredentials true (saveCredentials true "home" "pw" {}).1).2 = true ∧
    (loadCredentials true (saveCredentials true "home" "pw" {}).1).1.storedSSID
      = "home" ∧
    (loadCredentials true (saveCredentials true "home" "pw" {}).1).1.storedPassword
      = "pw" :=
  save_then_load_roundtrip true "home" "pw" {} (by rfl) (by decide)

/-- Claim C7, counterexample: an erase call whose NVS open fails still
reports success to its caller (clearCredentials returns true), and the
persisted ssid indeed survives, so the failure was real but not surfaced. -/
theorem erase_failure_not_surfaced_counterexample :
    (clearCredentials false false { nvs := { ssid := "home" } }).2.1 = true ∧
    (clearCredentials false false { nvs := { ssid := "home" } }).1.nvs.ssid
      = "home" := by
  constructor <;> rfl

/-- Claim C7 (amended): a save whose open fails surfaces the failure as a
boolean false and writes nothing, a load whose open fails is reported as
no credentials present, but erase calls report success unconditionally,
whatever the open result (clearAllCredentials returns void and
clearCredentials returns true). -/
theorem storage_failure_surfacing (ssid password : String) (s : CredState)
    (openOk reboot : Bool) :
    (saveCredentials false ssid password s).2 = false ∧
    (saveCredentials false ssid password s).1 = s ∧
    (loadCredentials false s).2 = false ∧
    (loadCredentials false s).1 = s ∧
    (clearCredentials openOk reboot s).2.1 = true := by
  refine ⟨rfl, rfl, rfl, rfl, rfl⟩

/-- Claim C10: a POST /save with non-empty ssid whose credential write
cannot open the NVS namespace answers 500, triggers no restart, and leaves
both the persisted and the cached credentials untouched. -/
theorem save_handler_storage_failure (hashFn : String → String) (cfg : Config)
    (ssid password resetPwd : String) (resetOpenOk : Bool) (s : CredState)
    (hssid : ssid ≠ "") :
    handleSave hashFn cfg ssid password resetPwd false resetOpenOk s =
      ⟨⟨500, "Failed to save credentials"⟩, s, false⟩ := by
  have hlen : ¬ssid.length = 0 := string_length_ne_zero ssid hssid
  simp [handleSave, saveCredentials, hlen]

/-- Claim C10 witness: the 500 path at a concrete request. -/
theorem save_handler_storage_failure_witness :
    handleSave id {} "home" "pw" "" false true {} =
      ⟨⟨500, "Failed to save credentials"⟩, {}, false⟩ :=
  save_handler_storage_failure id {} "home" "pw" "" true {} (by decide)

/-- Claim C8: the GET /scan handler answers 200 with a JSON array holding
one object (ssid, rssi, secure) per discovered network, joined in scan
order, and the scan results are discarded after the response. The mapped
entry list has exactly one element per network, in the same order. -/
theorem scan_response_shape (nets : List Network) :
    handleScan nets =
      ⟨200, "application/json",
        "[" ++ joinComma (nets.map networkJson) ++ "]", true⟩ ∧
    (nets.map networkJson).length = nets.length := by
  refine ⟨?_, by simp⟩
  simp [handleScan, scanJson, scanJsonAux_zero_eq]

/-- Claim C3: with HTTP reset enabled and authentication required, a POST
/reset with an absent password or a non-matching digest answers 401 and
changes nothing; a matching digest fires the reset callback, erases every
stored credential and secret, and restarts. Without authentication any
POST /reset resets unconditionally. -/
theorem http_reset_authentication (hashFn : String → String) (cfg : Config)
    (password : String) (clearOk : Bool) (s : CredState)
    (hen : cfg.httpResetEnabled = true) :
    (cfg.httpResetAuthRequired = true →
      ((password = "" →
          handleReset hashFn cfg password clearOk s =
            ⟨⟨401, "Password required"⟩, s, false, false⟩) ∧
       (password ≠ "" → hashFn password ≠ s.resetPassword →
          handleReset hashFn cfg password clearOk s =
            ⟨⟨401, "Invalid password"⟩, s, false, false⟩) ∧
       (password ≠ "" → hashFn password = s.resetPassword →
          handleReset hashFn cfg password true s =
            ⟨⟨200, "Resetting device..."⟩, ⟨{}, "", "", ""⟩, true, true⟩))) ∧
    (cfg.httpResetAuthRequired = false →
      handleReset hashFn cfg password true s =
        ⟨⟨200, "Resetting device..."⟩, ⟨{}, "", "", ""⟩, true, true⟩) := by
  constructor
  · intro hauth
    refine ⟨?_, ?_, ?_⟩
    · intro hp
      subst hp
      simp [handleReset, hen, hauth]
    · intro hp hne
      have hlen : ¬password.length = 0 := string_length_ne_zero password hp
      simp [handleReset, hen, hauth, hlen, verifyPassword, hne]
    · intro hp heq
      have hlen : ¬password.length = 0 := string_length_ne_zero password hp
      simp [handleReset, hen, hauth, hlen, verifyPassword, heq,
        clearAllCredentials]
  · intro hauth
    simp [handleReset, hen, hauth, clearAllCredentials]

/-- Claim C3 witness: with authentication required, the matching digest
resets and a wrong one answers 401, at concrete inputs. -/
theorem http_reset_authentication_witness :
    handleReset id { httpResetEnabled := true, httpResetAuthRequired := true }
        "pw" true { resetPassword := "pw" } =
      ⟨⟨200, "Resetting device..."⟩, ⟨{}, "", "", ""⟩, true, true⟩ ∧
    handleReset id { httpResetEnabled := true, httpResetAuthRequired := true }
        "bad" true { resetPassword := "pw" } =
      ⟨⟨401, "Invalid password"⟩, { resetPassword := "pw" }, false, false⟩ := by
  have h1 := http_reset_authentication id
    { httpResetEnabled := true, httpResetAuthRequired := true }
    "pw" true { resetPassword := "pw" } rfl
  have h2 := http_reset_authentication id
    { httpResetEnabled := true, httpResetAuthRequired := true }
    "bad" true { resetPassword := "pw" } rfl
  exact ⟨(h1.1 rfl).2.2 (by decide) rfl, (h2.1 rfl).2.1 (by decide) (by decide)⟩

/-- Claim C5: a POST /save with empty ssid answers 400 and changes
nothing; with non-empty ssid (and the persistence capability succeeding)
the credentials are persisted and cached, the reset-secret digest is
additionally persisted exactly when a reset password was supplied and
authenticated reset is enabled, the response is 200, and the restart after
the fixed delay is reached. -/
theorem save_handler_spec (hashFn : String → String) (cfg : Config)
    (ssid password resetPwd : String) (credOk resetOk : Bool) (s : CredState) :
    (ssid = "" →
       handleSave hashFn cfg ssid password resetPwd credOk resetOk s =
         ⟨⟨400, "SSID is required"⟩, s, false⟩) ∧
    (ssid ≠ "" →
       (handleSave hashFn cfg ssid password resetPwd true true s).response =
         ⟨200, "Configuration saved. Rebooting..."⟩ ∧
       (handleSave hashFn cfg ssid password resetPwd true true s).restarted
         = true ∧
       (handleSave hashFn cfg ssid password resetPwd true true s).creds.nvs.ssid
         = ssid ∧
       (handleSave hashFn cfg ssid password resetPwd true true s).creds.nvs.password
         = password ∧
       (handleSave hashFn cfg ssid password resetPwd true true s).creds.storedSSID
         = ssid ∧
       (handleSave hashFn cfg ssid password resetPwd true true s).creds.storedPassword
         = password ∧
       (cfg.httpResetAuthRequired = true → resetPwd ≠ "" →
          (handleSave hashFn cfg ssid password resetPwd true true s).creds.nvs.resetPwd
            = hashFn resetPwd) ∧
       (¬(cfg.httpResetAuthRequired = true ∧ resetPwd ≠ "") →
          (handleSave hashFn cfg ssid password resetPwd true true s).creds.nvs.resetPwd
            = s.nvs.resetPwd)) := by
  constructor
  · intro hp
    subst hp
    simp [handleSave]
  · intro hp
    have hlen : ¬ssid.length = 0 := string_length_ne_zero ssid hp
    have hiff : (cfg.httpResetAuthRequired = true ∧ 0 < resetPwd.length) ↔
        (cfg.httpResetAuthRequired = true ∧ resetPwd ≠ "") := by
      constructor
      · rintro ⟨ha, hr⟩
        refine ⟨ha, fun hr0 => ?_⟩
        rw [hr0] at hr
        simp at hr
      · rintro ⟨ha, hr⟩
        have := string_length_ne_zero resetPwd hr
        exact ⟨ha, by omega⟩
    by_cases hc : cfg.httpResetAuthRequired = true ∧ 0 < resetPwd.length
    · have hval : handleSave hashFn cfg ssid password resetPwd true true s =
          ⟨⟨200, "Configuration saved. Rebooting..."⟩,
           { nvs := { ssid := ssid, password := password,
                      resetPwd := hashFn resetPwd,
                      bootCount := s.nvs.bootCount,
                      bootTime := s.nvs.bootTime },
             storedSSID := ssid, storedPassword := password,
             resetPassword := hashFn resetPwd }, true⟩ := by
        simp [handleSave, saveCredentials, saveResetPassword, hlen, hc]
      rw [hval]
      refine ⟨rfl, rfl, rfl, rfl, rfl, rfl, fun _ _ => rfl, fun h => ?_⟩
      exact absurd (hiff.mp hc) h
    · have hval : handleSave hashFn cfg ssid password resetPwd true true s =
          ⟨⟨200, "Configuration saved. Rebooting..."⟩,
           { nvs := { ssid := ssid, password := password,
                      resetPwd := s.nvs.resetPwd,
                      bootCount := s.nvs.bootCount,
                      bootTime := s.nvs.bootTime },
             storedSSID := ssid, storedPassword := password,
             resetPassword := s.resetPassword }, true⟩ := by
        simp [handleSave, saveCredentials, saveResetPassword, hlen, hc]
      rw [hval]
      refine ⟨rfl, rfl, rfl, rfl, rfl, rfl, fun ha hr => ?_, fun _ => rfl⟩
      exact absurd (hiff.mpr ⟨ha, hr⟩) hc

/-- Claim C5 witness: both branches at concrete requests. -/
theorem save_handler_spec_witness :
    handleSave id { httpResetAuthRequired := true } "" "pw" "rp" true true {} =
      ⟨⟨400, "SSID is required"⟩, {}, false⟩ ∧
    (handleSave id { httpResetAuthRequired := true } "home" "pw" "rp" true true
      {}).creds.nvs.ssid = "home" := by
  have h := save_handler_spec id { httpResetAuthRequired := true }
    "" "pw" "rp" true true {}
  have h2 := save_handler_spec id { httpResetAuthRequired := true }
    "home" "pw" "rp" true true {}
  exact ⟨h.1 rfl, (h2.2 (by decide)).2.2.1⟩

/-- Claim C4: with double-reboot detection enabled, begin() runs the check
before the state machine starts; each startup increments and persists the
boot counter and the current timestamp, and erases all stored credentials
and zeros the persisted counter exactly when the incremented counter is at
least 2 and the uint32 elapsed time since the last record is inside the
window. Starting from a fresh boot record, a second startup inside the
window erases the stored ssid, one outside the window keeps it. -/
theorem double_reboot_detection (cfg : Config) (s : CredState)
    (now t1 t2 : Nat) (cred pw : String)
    (hen : cfg.doubleRebootDetectEnabled = true) :
    (∀ nvs : Nvs,
       (beginProv cfg true true now (initialMachine nvs)).state = .loadConfig ∧
       (beginProv cfg true true now (initialMachine nvs)).creds =
         checkDoubleReboot cfg true true now (initialMachine nvs).creds) ∧
    ((2 ≤ (s.nvs.bootCount + 1) % U32 ∧
        u32sub now s.nvs.bootTime < cfg.doubleRebootWindow) →
       checkDoubleReboot cfg true true now s = ⟨{}, "", "", ""⟩) ∧
    (¬(2 ≤ (s.nvs.bootCount + 1) % U32 ∧
        u32sub now s.nvs.bootTime < cfg.doubleRebootWindow) →
       checkDoubleReboot cfg true true now s =
         { s with nvs := { s.nvs with
             bootCount := (s.nvs.bootCount + 1) % U32,
             bootTime := now % U32 } }) ∧
    (let s0 : CredState :=
       { nvs := { ssid := cred, password := pw, resetPwd := "",
                  bootCount := 0, bootTime := 0 } }
     let s1 := checkDoubleReboot cfg true true t1 s0
     let s2 := checkDoubleReboot cfg true true t2 s1
     s1.nvs.ssid = cred ∧
     (u32sub t2 t1 < cfg.doubleRebootWindow →
        s2.nvs.ssid = "" ∧ s2.nvs.password = "" ∧ s2.nvs.bootCount = 0) ∧
     (¬u32sub t2 t1 < cfg.doubleRebootWindow →
        s2.nvs.ssid = cred ∧ s2.nvs.password = pw)) := by
  refine ⟨?_, ?_, ?_, ?_⟩
  · intro nvs
    exact ⟨rfl, by simp [beginProv, hen]⟩
  · intro htrig
    simp [checkDoubleReboot, htrig, clearAllCredentials]
  · intro htrig
    simp [checkDoubleReboot, htrig]
  · have hsub : ∀ a b : Nat, u32sub a (b % U32) = u32sub a b := by
      intro a b
      simp only [u32sub, U32]
      omega
    have h1 : checkDoubleReboot cfg true true t1
        ({ nvs := { ssid := cred, password := pw, resetPwd := "",
                    bootCount := 0, bootTime := 0 } } : CredState) =
        { nvs := { ssid := cred, password := pw, resetPwd := "",
                   bootCount := 1, bootTime := t1 % U32 } } := by
      have hnot : ¬(2 ≤ (0 + 1) % U32 ∧
          u32sub t1 0 < cfg.doubleRebootWindow) := by
        rintro ⟨h2, _⟩
        rw [show (0 + 1) % U32 = 1 by simp [U32]] at h2
        omega
      simp [checkDoubleReboot, hnot, U32]
    refine ⟨by rw [h1], ?_, ?_⟩
    · intro hin
      have htrig : 2 ≤ (1 + 1) % U32 ∧
          u32sub t2 (t1 % U32) < cfg.doubleRebootWindow := by
        refine ⟨by simp [U32], ?_⟩
        rw [hsub]
        exact hin
      rw [h1]
      simp [checkDoubleReboot, htrig, clearAllCredentials]
    · intro hout
      have htrig : ¬(2 ≤ (1 + 1) % U32 ∧
          u32sub t2 (t1 % U32) < cfg.doubleRebootWindow) := by
        rintro ⟨_, hlt⟩
        rw [hsub] at hlt
        exact hout hlt
      rw [h1]
      simp [checkDoubleReboot, htrig]

/-- Claim C4 witness: window 10000 ms, first boot at millis 100; a second
boot at 5000 erases the stored ssid, a second boot at 20000 keeps it. -/
theorem double_reboot_detection_witness :
    (checkDoubleReboot { doubleRebootDetectEnabled := true } true true 5000
      (checkDoubleReboot { doubleRebootDetectEnabled := true } true true 100
        { nvs := { ssid := "home", password := "pw", resetPwd := "",
                   bootCount := 0, bootTime := 0 } })).nvs.ssid = "" ∧
    (checkDoubleReboot { doubleRebootDetectEnabled := true } true true 20000
      (checkDoubleReboot { doubleRebootDetectEnabled := true } true true 100
        { nvs := { ssid := "home", password := "pw", resetPwd := "",
                   bootCount := 0, bootTime := 0 } })).nvs.ssid = "home" := by
  have ha := double_reboot_detection { doubleRebootDetectEnabled := true }
    {} 0 100 5000 "home" "pw" rfl
  have hb := double_reboot_detection { doubleRebootDetectEnabled := true }
    {} 0 100 20000 "home" "pw" rfl
  refine ⟨(ha.2.2.2.2.1 ?_).1, (hb.2.2.2.2.2 ?_).1⟩
  · show u32sub 5000 100 < 10000
    decide
  · show ¬u32sub 20000 100 < 10000
    decide

/-- uint32 subtraction of zero is the identity below 2 ^ 32. -/
theorem u32sub_zero (a : Nat) (h : a < U32) : u32sub a 0 = a := by
  simp only [u32sub, U32] at *
  omega

/-- A STATE_CONNECTING tick whose join fails moves to STATE_RETRY_WAIT,
recording the current time, and fires nothing. -/
theorem tick_connecting_fail (hashFn : String → String) (cfg : Config)
    (m : Machine) (t : Nat)
    (hhw : cfg.hardwareResetEnabled = false)
    (hst : m.state = .connecting) (hres : m.restarted = false) :
    tick hashFn cfg m (envAt t) =
      ({ m with state := .retryWait, lastRetryTime := t % U32 }, {}) := by
  simp [tick, stepState, envAt, hhw, hst, hres]

/-- A STATE_RETRY_WAIT tick after the delay, with the incremented counter
still below max_retries: back to STATE_CONNECTING, nothing fired. -/
theorem tick_retryWait_below (hashFn : String → String) (cfg : Config)
    (m : Machine) (t : Nat)
    (hhw : cfg.hardwareResetEnabled = false)
    (hst : m.state = .retryWait) (hres : m.restarted = false)
    (htime : cfg.retryDelay <= u32sub t m.lastRetryTime)
    (hsmall : m.retryCount + 1 < U8)
    (hlt : m.retryCount + 1 < cfg.maxRetries) :
    tick hashFn cfg m (envAt t) =
      ({ m with retryCount := m.retryCount + 1, state := .connecting }, {}) := by
  have hmod : (m.retryCount + 1) % U8 = m.retryCount + 1 := Nat.mod_eq_of_lt hsmall
  have hnotmax : ¬cfg.maxRetries <= m.retryCount + 1 := by omega
  simp [tick, stepState, envAt, hhw, hst, hres, htime, hmod, hnotmax]

/-- A STATE_RETRY_WAIT tick after the delay that reaches max_retries with
auto-wipe on: the failed callback fires with the counter, credentials are
erased, state becomes STATE_PROVISIONING. -/
theorem tick_retryWait_exhaust_wipe (hashFn : String → String) (cfg : Config)
    (m : Machine) (t : Nat)
    (hhw : cfg.hardwareResetEnabled = false)
    (hst : m.state = .retryWait) (hres : m.restarted = false)
    (htime : cfg.retryDelay <= u32sub t m.lastRetryTime)
    (hge : cfg.maxRetries <= (m.retryCount + 1) % U8)
    (hap : cfg.autoWipeOnMaxRetries = true) :
    tick hashFn cfg m (envAt t) =
      ({ m with retryCount := (m.retryCount + 1) % U8,
                creds := clearAllCredentials true m.creds,
                state := .provisioning },
        { failedFired := some ((m.retryCount + 1) % U8) }) := by
  simp [tick, stepState, envAt, hhw, hst, hres, htime, hge, hap]

/-- A STATE_RETRY_WAIT tick after the delay that reaches max_retries with
auto-wipe off: the failed callback fires, the counter resets to zero and
the state returns to STATE_CONNECTING. -/
theorem tick_retryWait_exhaust_nowipe (hashFn : String → String) (cfg : Config)
    (m : Machine) (t : Nat)
    (hhw : cfg.hardwareResetEnabled = false)
    (hst : m.state = .retryWait) (hres : m.restarted = false)
    (htime : cfg.retryDelay <= u32sub t m.lastRetryTime)
    (hge : cfg.maxRetries <= (m.retryCount + 1) % U8)
    (hap : cfg.autoWipeOnMaxRetries = false) :
    tick hashFn cfg m (envAt t) =
      ({ m with retryCount := 0, state := .connecting },
        { failedFired := some ((m.retryCount + 1) % U8) }) := by
  simp [tick, stepState, envAt, hhw, hst, hres, htime, hge, hap]

/-- One failed round below max_retries: still STATE_CONNECTING, counter up
by one, not restarted. -/
theorem failRound_below (hashFn : String → String) (cfg : Config)
    (m : Machine) (k : Nat)
    (hhw : cfg.hardwareResetEnabled = false)
    (hdelay : cfg.retryDelay < U32) (hN8 : cfg.maxRetries < U8)
    (hst : m.state = .connecting) (hrc : m.retryCount = k)
    (hres : m.restarted = false)
    (hlt : k + 1 < cfg.maxRetries) :
    (failRound hashFn cfg m).state = .connecting ∧
    (failRound hashFn cfg m).retryCount = k + 1 ∧
    (failRound hashFn cfg m).restarted = false := by
  have h1 := tick_connecting_fail hashFn cfg m 0 hhw hst hres
  have htime : cfg.retryDelay <=
      u32sub cfg.retryDelay
        ({ m with state := PState.retryWait, lastRetryTime := 0 % U32 } :
          Machine).lastRetryTime := by
    show cfg.retryDelay <= u32sub cfg.retryDelay (0 % U32)
    have : (0 : Nat) % U32 = 0 := by simp
    rw [this, u32sub_zero cfg.retryDelay hdelay]
  have h2 := tick_retryWait_below hashFn cfg
    { m with state := PState.retryWait, lastRetryTime := 0 % U32 }
    cfg.retryDelay hhw rfl hres htime (by simp [hrc]; omega) (by simp [hrc]; omega)
  simp only [failRound, h1, h2]
  simp [hrc, hres]

/-- After k failed rounds with k below max_retries, the machine is back in
STATE_CONNECTING with retry counter k and has not restarted. -/
theorem failRounds_below (hashFn : String → String) (cfg : Config)
    (m : Machine)
    (hhw : cfg.hardwareResetEnabled = false)
    (hdelay : cfg.retryDelay < U32) (hN8 : cfg.maxRetries < U8)
    (hst : m.state = .connecting) (hrc : m.retryCount = 0)
    (hres : m.restarted = false) :
    ∀ k, k < cfg.maxRetries →
      (failRounds hashFn cfg m k).state = .connecting ∧
      (failRounds hashFn cfg m k).retryCount = k ∧
      (failRounds hashFn cfg m k).restarted = false := by
  intro k
  induction k with
  | zero => intro _; exact ⟨hst, hrc, hres⟩
  | succ n ih =>
      intro hlt
      have hn := ih (by omega)
      have hstep := failRound_below hashFn cfg (failRounds hashFn cfg m n) n
        hhw hdelay hN8 hn.1 hn.2.1 hn.2.2 (by omega)
      exact hstep

/-- Claim C2, counterexample: in ProvisioningActive with the inactivity
timeout elapsed and no stored credentials, the tick is not a no-op: the
state does stay ProvisioningActive, but the access point, the DNS server
and the web server, all running before the tick, are all stopped
(handleStateProvisioningActive calls stopProvisioningMode unconditionally
and only guards the state change on stored credentials). -/
theorem provisioning_timeout_no_creds_counterexample :
    ({ state := .provisioningActive, retryCount := 0, lastRetryTime := 0,
       apStartTime := 0, buttonPressed := false, buttonPressStart := 0,
       creds := {}, apActive := true, dnsActive := true, webActive := true,
       restarted := false } : Machine).apActive = true ∧
    ({ state := .provisioningActive, retryCount := 0, lastRetryTime := 0,
       apStartTime := 0, buttonPressed := false, buttonPressStart := 0,
       creds := {}, apActive := true, dnsActive := true, webActive := true,
       restarted := false } : Machine).dnsActive = true ∧
    ({ state := .provisioningActive, retryCount := 0, lastRetryTime := 0,
       apStartTime := 0, buttonPressed := false, buttonPressStart := 0,
       creds := {}, apActive := true, dnsActive := true, webActive := true,
       restarted := false } : Machine).webActive = true ∧
    (tick id {}
      { state := .provisioningActive, retryCount := 0, lastRetryTime := 0,
        apStartTime := 0, buttonPressed := false, buttonPressStart := 0,
        creds := {}, apActive := true, dnsActive := true, webActive := true,
        restarted := false }
      (envAt 300000)).1.state = PState.provisioningActive ∧
    (tick id {}
      { state := .provisioningActive, retryCount := 0, lastRetryTime := 0,
        apStartTime := 0, buttonPressed := false, buttonPressStart := 0,
        creds := {}, apActive := true, dnsActive := true, webActive := true,
        restarted := false }
      (envAt 300000)).1.apActive = false ∧
    (tick id {}
      { state := .provisioningActive, retryCount := 0, lastRetryTime := 0,
        apStartTime := 0, buttonPressed := false, buttonPressStart := 0,
        creds := {}, apActive := true, dnsActive := true, webActive := true,
        restarted := false }
      (envAt 300000)).1.dnsActive = false ∧
    (tick id {}
      { state := .provisioningActive, retryCount := 0, lastRetryTime := 0,
        apStartTime := 0, buttonPressed := false, buttonPressStart := 0,
        creds := {}, apActive := true, dnsActive := true, webActive := true,
        restarted := false }
      (envAt 300000)).1.webActive = false := by
  refine ⟨rfl, rfl, rfl, ?_, ?_, ?_, ?_⟩ <;> decide

/-- Claim C2 (amended): a ProvisioningActive tick with the AP timeout
elapsed and no stored credentials keeps the state ProvisioningActive and
leaves the stored credentials alone, but tears the AP, DNS server and web
server down. -/
theorem provisioning_timeout_no_creds_teardown (hashFn : String → String)
    (cfg : Config) (m : Machine) (e : Env)
    (hhw : cfg.hardwareResetEnabled = false)
    (hst : m.state = .provisioningActive)
    (hres : m.restarted = false)
    (hreq : e.request = none)
    (hto : 0 < cfg.apTimeout)
    (helapsed : cfg.apTimeout ≤ u32sub e.now m.apStartTime)
    (hss : m.creds.storedSSID = "") :
    (tick hashFn cfg m e).1.state = .provisioningActive ∧
    (tick hashFn cfg m e).1.apActive = false ∧
    (tick hashFn cfg m e).1.dnsActive = false ∧
    (tick hashFn cfg m e).1.webActive = false ∧
    (tick hashFn cfg m e).1.creds = m.creds ∧
    (tick hashFn cfg m e).2 = {} := by
  have hval : tick hashFn cfg m e =
      ({ m with apActive := false, dnsActive := false, webActive := false },
        {}) := by
    simp [tick, stepState, hres, hhw, hst, hreq, hto, helapsed, hss]
  rw [hval]
  exact ⟨hst, rfl, rfl, rfl, rfl, rfl⟩

/-- Claim C2 witness: the teardown at a concrete machine and tick. -/
theorem provisioning_timeout_no_creds_teardown_witness :
    (tick id {}
      { state := .provisioningActive, retryCount := 0, lastRetryTime := 0,
        apStartTime := 0, buttonPressed := false, buttonPressStart := 0,
        creds := {}, apActive := true, dnsActive := true, webActive := true,
        restarted := false }
      (envAt 400000)).1.state = .provisioningActive ∧
    (tick id {}
      { state := .provisioningActive, retryCount := 0, lastRetryTime := 0,
        apStartTime := 0, buttonPressed := false, buttonPressStart := 0,
        creds := {}, apActive := true, dnsActive := true, webActive := true,
        restarted := false }
      (envAt 400000)).1.apActive = false := by
  have h := provisioning_timeout_no_creds_teardown id {}
    { state := .provisioningActive, retryCount := 0, lastRetryTime := 0,
      apStartTime := 0, buttonPressed := false, buttonPressStart := 0,
      creds := {}, apActive := true, dnsActive := true, webActive := true,
      restarted := false }
    (envAt 400000) rfl rfl rfl rfl (by decide) (by decide) rfl
  exact ⟨h.1, h.2.1⟩

/-- The callbacks fired by one failed round below max_retries: none. -/
theorem failRound_ticks_silent (hashFn : String → String) (cfg : Config)
    (m : Machine) (k : Nat)
    (hhw : cfg.hardwareResetEnabled = false)
    (hdelay : cfg.retryDelay < U32) (hN8 : cfg.maxRetries < U8)
    (hst : m.state = .connecting) (hrc : m.retryCount = k)
    (hres : m.restarted = false)
    (hlt : k + 1 < cfg.maxRetries) :
    (tick hashFn cfg m (envAt 0)).2 = {} ∧
    (tick hashFn cfg (tick hashFn cfg m (envAt 0)).1
      (envAt cfg.retryDelay)).2 = {} := by
  have h1 := tick_connecting_fail hashFn cfg m 0 hhw hst hres
  have htime : cfg.retryDelay <=
      u32sub cfg.retryDelay
        ({ m with state := PState.retryWait, lastRetryTime := 0 % U32 } :
          Machine).lastRetryTime := by
    show cfg.retryDelay <= u32sub cfg.retryDelay (0 % U32)
    have h0 : (0 : Nat) % U32 = 0 := by simp
    rw [h0, u32sub_zero cfg.retryDelay hdelay]
  have h2 := tick_retryWait_below hashFn cfg
    { m with state := PState.retryWait, lastRetryTime := 0 % U32 }
    cfg.retryDelay hhw rfl hres htime (by simp [hrc]; omega) (by simp [hrc]; omega)
  rw [h1]
  exact ⟨rfl, by rw [h2]⟩

/-- Claim C1: with max_retries N at least 1, auto-wipe enabled, and a join
capability that always fails, a machine starting in STATE_CONNECTING with
retry counter 0 passes through STATE_RETRY_WAIT once per attempt with no
callback fired, and on the tick that ends the N-th failed round the failed
callback fires with counter value N, all stored credentials are erased and
the state becomes STATE_PROVISIONING; with auto-wipe disabled the counter
is instead reset to 0 and the state returns to STATE_CONNECTING. -/
theorem retry_exhaustion (hashFn : String → String) (cfg : Config)
    (m : Machine)
    (hN1 : 1 <= cfg.maxRetries) (hN8 : cfg.maxRetries < U8)
    (hdelay : cfg.retryDelay < U32)
    (hhw : cfg.hardwareResetEnabled = false)
    (hst : m.state = .connecting) (hrc : m.retryCount = 0)
    (hres : m.restarted = false) :
    (∀ k, k < cfg.maxRetries →
      (failRounds hashFn cfg m k).state = .connecting ∧
      (failRounds hashFn cfg m k).retryCount = k ∧
      (failRounds hashFn cfg m k).restarted = false) ∧
    (∀ k, k + 1 < cfg.maxRetries →
      (tick hashFn cfg (failRounds hashFn cfg m k) (envAt 0)).2 = {} ∧
      (tick hashFn cfg (tick hashFn cfg (failRounds hashFn cfg m k)
        (envAt 0)).1 (envAt cfg.retryDelay)).2 = {}) ∧
    (tick hashFn cfg (failRounds hashFn cfg m (cfg.maxRetries - 1))
      (envAt 0)).1.state = .retryWait ∧
    (tick hashFn cfg (failRounds hashFn cfg m (cfg.maxRetries - 1))
      (envAt 0)).2 = {} ∧
    (tick hashFn cfg
      (tick hashFn cfg (failRounds hashFn cfg m (cfg.maxRetries - 1))
        (envAt 0)).1
      (envAt cfg.retryDelay)).2.failedFired = some cfg.maxRetries ∧
    (cfg.autoWipeOnMaxRetries = true →
      (tick hashFn cfg
        (tick hashFn cfg (failRounds hashFn cfg m (cfg.maxRetries - 1))
          (envAt 0)).1
        (envAt cfg.retryDelay)).1.state = .provisioning ∧
      (tick hashFn cfg
        (tick hashFn cfg (failRounds hashFn cfg m (cfg.maxRetries - 1))
          (envAt 0)).1
        (envAt cfg.retryDelay)).1.creds = ⟨{}, "", "", ""⟩) ∧
    (cfg.autoWipeOnMaxRetries = false →
      (tick hashFn cfg
        (tick hashFn cfg (failRounds hashFn cfg m (cfg.maxRetries - 1))
          (envAt 0)).1
        (envAt cfg.retryDelay)).1.state = .connecting ∧
      (tick hashFn cfg
        (tick hashFn cfg (failRounds hashFn cfg m (cfg.maxRetries - 1))
          (envAt 0)).1
        (envAt cfg.retryDelay)).1.retryCount = 0) := by
  have hrounds := failRounds_below hashFn cfg m hhw hdelay hN8 hst hrc hres
  refine ⟨hrounds, ?_, ?_⟩
  · intro k hk
    have hk0 := hrounds k (by omega)
    exact failRound_ticks_silent hashFn cfg (failRounds hashFn cfg m k) k
      hhw hdelay hN8 hk0.1 hk0.2.1 hk0.2.2 hk
  · have hpre := hrounds (cfg.maxRetries - 1) (by omega)
    have h1 := tick_connecting_fail hashFn cfg
      (failRounds hashFn cfg m (cfg.maxRetries - 1)) 0 hhw hpre.1 hpre.2.2
    have htime : cfg.retryDelay <=
        u32sub cfg.retryDelay
          ({ failRounds hashFn cfg m (cfg.maxRetries - 1) with
              state := PState.retryWait, lastRetryTime := 0 % U32 } :
            Machine).lastRetryTime := by
      show cfg.retryDelay <= u32sub cfg.retryDelay (0 % U32)
      have h0 : (0 : Nat) % U32 = 0 := by simp
      rw [h0, u32sub_zero cfg.retryDelay hdelay]
    have hNmod : ((failRounds hashFn cfg m (cfg.maxRetries - 1)).retryCount + 1)
        % U8 = cfg.maxRetries := by
      rw [hpre.2.1]
      simp only [U8] at *
      omega
    have hge : cfg.maxRetries <=
        (({ failRounds hashFn cfg m (cfg.maxRetries - 1) with
            state := PState.retryWait, lastRetryTime := 0 % U32 } :
          Machine).retryCount + 1) % U8 := by
      show cfg.maxRetries <=
        ((failRounds hashFn cfg m (cfg.maxRetries - 1)).retryCount + 1) % U8
      rw [hNmod]
    have h2wipe := fun hap => tick_retryWait_exhaust_wipe hashFn cfg
      { failRounds hashFn cfg m (cfg.maxRetries - 1) with
        state := PState.retryWait, lastRetryTime := 0 % U32 }
      cfg.retryDelay hhw rfl hpre.2.2 htime hge hap
    have h2nowipe := fun hap => tick_retryWait_exhaust_nowipe hashFn cfg
      { failRounds hashFn cfg m (cfg.maxRetries - 1) with
        state := PState.retryWait, lastRetryTime := 0 % U32 }
      cfg.retryDelay hhw rfl hpre.2.2 htime hge hap
    rw [h1]
    refine ⟨rfl, rfl, ?_, ?_, ?_⟩
    · cases hap : cfg.autoWipeOnMaxRetries with
      | true => rw [h2wipe hap]; simpa using hNmod
      | false => rw [h2nowipe hap]; simpa using hNmod
    · intro hap
      rw [h2wipe hap]
      exact ⟨rfl, by simp [clearAllCredentials]⟩
    · intro hap
      rw [h2nowipe hap]
      exact ⟨rfl, rfl⟩

/-- Claim C1 witness: max_retries 2 with auto-wipe, starting from stored
credentials for "home": the tick ending the second failed round fires the
failed callback with 2, erases the store and enters STATE_PROVISIONING. -/
theorem retry_exhaustion_witness :
    (tick id { maxRetries := 2, retryDelay := 5, autoWipeOnMaxRetries := true }
      (tick id { maxRetries := 2, retryDelay := 5, autoWipeOnMaxRetries := true }
        (failRounds id
          { maxRetries := 2, retryDelay := 5, autoWipeOnMaxRetries := true }
          { state := .connecting, retryCount := 0, lastRetryTime := 0,
            apStartTime := 0, buttonPressed := false, buttonPressStart := 0,
            creds := { nvs := { ssid := "home", password := "pw" },
                       storedSSID := "home", storedPassword := "pw" },
            apActive := false, dnsActive := false, webActive := false,
            restarted := false } 1)
        (envAt 0)).1
      (envAt 5)).2.failedFired = some 2 ∧
    (tick id { maxRetries := 2, retryDelay := 5, autoWipeOnMaxRetries := true }
      (tick id { maxRetries := 2, retryDelay := 5, autoWipeOnMaxRetries := true }
        (failRounds id
          { maxRetries := 2, retryDelay := 5, autoWipeOnMaxRetries := true }
          { state := .connecting, retryCount := 0, lastRetryTime := 0,
            apStartTime := 0, buttonPressed := false, buttonPressStart := 0,
            creds := { nvs := { ssid := "home", password := "pw" },
                       storedSSID := "home", storedPassword := "pw" },
            apActive := false, dnsActive := false, webActive := false,
            restarted := false } 1)
        (envAt 0)).1
      (envAt 5)).1.state = .provisioning ∧
    (tick id { maxRetries := 2, retryDelay := 5, autoWipeOnMaxRetries := true }
      (tick id { maxRetries := 2, retryDelay := 5, autoWipeOnMaxRetries := true }
        (failRounds id
          { maxRetries := 2, retryDelay := 5, autoWipeOnMaxRetries := true }
          { state := .connecting, retryCount := 0, lastRetryTime := 0,
            apStartTime := 0, buttonPressed := false, buttonPressStart := 0,
            creds := { nvs := { ssid := "home", password := "pw" },
                       storedSSID := "home", storedPassword := "pw" },
            apActive := false, dnsActive := false, webActive := false,
            restarted := false } 1)
        (envAt 0)).1
      (envAt 5)).1.creds = ⟨{}, "", "", ""⟩ := by
  have h := retry_exhaustion id
    { maxRetries := 2, retryDelay := 5, autoWipeOnMaxRetries := true }
    { state := .connecting, retryCount := 0, lastRetryTime := 0,
      apStartTime := 0, buttonPressed := false, buttonPressStart := 0,
      creds := { nvs := { ssid := "home", password := "pw" },
                 storedSSID := "home", storedPassword := "pw" },
      apActive := false, dnsActive := false, webActive := false,
      restarted := false }
    (by decide) (by decide) (by decide) rfl rfl rfl rfl
  exact ⟨h.2.2.2.2.1, (h.2.2.2.2.2.1 rfl).1, (h.2.2.2.2.2.1 rfl).2⟩

/-- A save that did not reach ESP.restart() left the store unchanged. -/
theorem handleSave_not_restarted (hashFn : String → String) (cfg : Config)
    (ssid password resetPwd : String) (a b : Bool) (s : CredState) :
    (handleSave hashFn cfg ssid password resetPwd a b s).restarted = false →
    (handleSave hashFn cfg ssid password resetPwd a b s).creds = s := by
  by_cases hz : ssid.length = 0
  · simp [handleSave, hz]
  · cases a with
    | false => simp [handleSave, hz, saveCredentials]
    | true => simp [handleSave, hz, saveCredentials]

/-- A reset request that did not reach ESP.restart() left the store
unchanged. -/
theorem handleReset_not_restarted (hashFn : String → String) (cfg : Config)
    (password : String) (c : Bool) (s : CredState) :
    (handleReset hashFn cfg password c s).restarted = false →
    (handleReset hashFn cfg password c s).creds = s := by
  simp only [handleReset]
  split
  · simp
  · split
    · simp
    · split
      · simp
      · simp

/-- Serving one provisioning-mode request never touches the retry counter
or the state, and if it did not restart it left the store unchanged. -/
theorem serveProvisioning_frame (hashFn : String → String) (cfg : Config)
    (e : Env) (r : Request) (m : Machine) :
    (serveProvisioning hashFn cfg e r m).1.retryCount = m.retryCount ∧
    (serveProvisioning hashFn cfg e r m).1.state = m.state ∧
    (serveProvisioning hashFn cfg e r m).1.apStartTime = m.apStartTime ∧
    ((serveProvisioning hashFn cfg e r m).1.restarted = false →
      (serveProvisioning hashFn cfg e r m).1.creds = m.creds) := by
  cases r with
  | savePost ssid password resetPwd =>
      refine ⟨rfl, rfl, rfl, fun hr => ?_⟩
      exact handleSave_not_restarted hashFn cfg ssid password resetPwd
        e.saveOpenOk e.resetSecretOpenOk m.creds hr
  | resetPost password =>
      by_cases hen : cfg.httpResetEnabled = true
      · refine ⟨by simp [serveProvisioning, hen], by simp [serveProvisioning, hen],
          by simp [serveProvisioning, hen], fun hr => ?_⟩
        simp only [serveProvisioning, hen, if_pos] at *
        exact handleReset_not_restarted hashFn cfg password e.clearOpenOk m.creds hr
      · simp [serveProvisioning, hen]
  | root => exact ⟨rfl, rfl, rfl, fun _ => rfl⟩
  | scan nets => exact ⟨rfl, rfl, rfl, fun _ => rfl⟩
  | saveGet => exact ⟨rfl, rfl, rfl, fun _ => rfl⟩
  | status => exact ⟨rfl, rfl, rfl, fun _ => rfl⟩
  | other path => exact ⟨rfl, rfl, rfl, fun _ => rfl⟩

/-- Serving one connected-mode request never touches the retry counter or
the state, and if it did not restart it left the store unchanged. -/
theorem serveConnected_frame (hashFn : String → String) (cfg : Config)
    (e : Env) (r : Request) (m : Machine) :
    (serveConnected hashFn cfg e r m).1.retryCount = m.retryCount ∧
    (serveConnected hashFn cfg e r m).1.state = m.state ∧
    ((serveConnected hashFn cfg e r m).1.restarted = false →
      (serveConnected hashFn cfg e r m).1.creds = m.creds) := by
  cases r with
  | resetPost password =>
      refine ⟨rfl, rfl, fun hr => ?_⟩
      exact handleReset_not_restarted hashFn cfg password e.clearOpenOk m.creds hr
  | root => exact ⟨rfl, rfl, fun _ => rfl⟩
  | scan nets => exact ⟨rfl, rfl, fun _ => rfl⟩
  | savePost ssid password resetPwd => exact ⟨rfl, rfl, fun _ => rfl⟩
  | saveGet => exact ⟨rfl, rfl, fun _ => rfl⟩
  | status => exact ⟨rfl, rfl, fun _ => rfl⟩
  | other path => exact ⟨rfl, rfl, fun _ => rfl⟩

/-- The hardware-reset check never touches the retry counter or the state;
it either fires performReset (restarting) or leaves the store and the
restart flag alone. -/
theorem checkHardwareReset_cases (cfg : Config) (e : Env) (m : Machine) :
    (checkHardwareReset cfg e m).1.retryCount = m.retryCount ∧
    (checkHardwareReset cfg e m).1.state = m.state ∧
    ((checkHardwareReset cfg e m).1.restarted = true ∨
     ((checkHardwareReset cfg e m).1.restarted = m.restarted ∧
      (checkHardwareReset cfg e m).1.creds = m.creds)) := by
  simp only [checkHardwareReset]
  split
  · exact ⟨rfl, rfl, Or.inr ⟨rfl, rfl⟩⟩
  · split
    · split
      · exact ⟨rfl, rfl, Or.inl rfl⟩
      · exact ⟨rfl, rfl, Or.inr ⟨rfl, rfl⟩⟩
    · split
      · exact ⟨rfl, rfl, Or.inr ⟨rfl, rfl⟩⟩
      · exact ⟨rfl, rfl, Or.inr ⟨rfl, rfl⟩⟩

/-- Reading the reset-secret digest into the cache leaves the cached ssid
alone. -/
theorem loadResetPassword_ssid (ok : Bool) (s : CredState) :
    (loadResetPassword ok s).1.storedSSID = s.storedSSID := by
  cases ok <;> simp [loadResetPassword]

/-- One state-machine step preserves the strengthened retry invariant. -/
theorem retryInv_stepState (hashFn : String → String) (cfg : Config)
    (m1 : Machine) (e : Env)
    (hN1 : 1 <= cfg.maxRetries) (hN8 : cfg.maxRetries < U8)
    (hres : m1.restarted = false) (h : RetryInv cfg m1) :
    RetryInv cfg (stepState hashFn cfg m1 e).1 := by
  obtain ⟨hle, hcl⟩ := h
  obtain ⟨hlow, hprov⟩ := hcl hres
  cases hstate : m1.state with
  | init =>
      have hv : stepState hashFn cfg m1 e =
          ({ m1 with state := .loadConfig }, {}) := by
        simp [stepState, hstate]
      rw [hv]
      exact ⟨hle, fun _ => ⟨fun _ => hlow (Or.inl hstate),
        fun _ _ => hlow (Or.inl hstate)⟩⟩
  | loadConfig =>
      have hcount : m1.retryCount < cfg.maxRetries := hlow (Or.inr (Or.inl hstate))
      by_cases hlc : (loadCredentials e.loadOpenOk m1.creds).2 = true
      · have hv : stepState hashFn cfg m1 e =
            ({ m1 with creds := (loadCredentials e.loadOpenOk m1.creds).1,
                       retryCount := 0, state := .connecting }, {}) := by
          simp [stepState, hstate, hlc]
        rw [hv]
        exact ⟨Nat.zero_le _, fun _ => ⟨fun _ => hN1, fun _ _ => hN1⟩⟩
      · have hlc' : (loadCredentials e.loadOpenOk m1.creds).2 = false := by
          simpa using hlc
        have hv : stepState hashFn cfg m1 e =
            ({ m1 with creds := (loadCredentials e.loadOpenOk m1.creds).1,
                       state := .provisioning }, {}) := by
          simp [stepState, hstate, hlc']
        rw [hv]
        exact ⟨hle, fun _ => ⟨fun _ => hcount, fun _ _ => hcount⟩⟩
  | connecting =>
      have hcount : m1.retryCount < cfg.maxRetries :=
        hlow (Or.inr (Or.inr (Or.inl hstate)))
      by_cases hc : e.connectOk = true
      · have hv : stepState hashFn cfg m1 e =
            ({ m1 with state := .connected,
                       webActive := m1.webActive || cfg.httpResetEnabled },
              { connectedFired := true }) := by
          simp [stepState, hstate, hc]
        rw [hv]
        exact ⟨hle, fun _ => ⟨fun _ => hcount, fun _ _ => hcount⟩⟩
      · have hc' : e.connectOk = false := by simpa using hc
        have hv : stepState hashFn cfg m1 e =
            ({ m1 with state := .retryWait, lastRetryTime := e.now % U32 },
              {}) := by
          simp [stepState, hstate, hc']
        rw [hv]
        exact ⟨hle, fun _ => ⟨fun _ => hcount, fun _ _ => hcount⟩⟩
  | connected =>
      cases hreq : e.request with
      | none =>
          by_cases hlink : e.linkUp = true
          · have hv : stepState hashFn cfg m1 e = (m1, {}) := by
              simp [stepState, hstate, hreq, hres, hlink]
            rw [hv]
            exact ⟨hle, fun _ => ⟨hlow, hprov⟩⟩
          · have hlink' : e.linkUp = false := by simpa using hlink
            have hv : stepState hashFn cfg m1 e =
                ({ m1 with retryCount := 0, state := .connecting }, {}) := by
              simp [stepState, hstate, hreq, hres, hlink']
            rw [hv]
            exact ⟨Nat.zero_le _, fun _ => ⟨fun _ => hN1, fun _ _ => hN1⟩⟩
      | some r =>
          by_cases hweb : m1.webActive = true
          · obtain ⟨hf1, hf2, hf3⟩ := serveConnected_frame hashFn cfg e r m1
            by_cases hr2 : (serveConnected hashFn cfg e r m1).1.restarted = true
            · have hv : stepState hashFn cfg m1 e =
                  serveConnected hashFn cfg e r m1 := by
                simp [stepState, hstate, hreq, hweb, hr2]
              rw [hv]
              exact ⟨by rw [hf1]; exact hle,
                fun hf => absurd hr2 (by simp [hf])⟩
            · have hr2' : (serveConnected hashFn cfg e r m1).1.restarted = false := by
                simpa using hr2
              by_cases hlink : e.linkUp = true
              · have hv : stepState hashFn cfg m1 e =
                    serveConnected hashFn cfg e r m1 := by
                  simp [stepState, hstate, hreq, hweb, hr2', hlink]
                rw [hv]
                refine ⟨by rw [hf1]; exact hle,
                  fun _ => ⟨fun hq => ?_, fun hq _ => ?_⟩⟩
                · rw [hf2, hstate] at hq
                  rcases hq with hq | hq | hq | hq <;> simp at hq
                · rw [hf2, hstate] at hq
                  rcases hq with hq | hq <;> simp at hq
              · have hlink' : e.linkUp = false := by simpa using hlink
                have hv : stepState hashFn cfg m1 e =
                    ({ (serveConnected hashFn cfg e r m1).1 with
                        retryCount := 0, state := .connecting },
                      (serveConnected hashFn cfg e r m1).2) := by
                  simp [stepState, hstate, hreq, hweb, hr2', hlink']
                rw [hv]
                exact ⟨Nat.zero_le _, fun _ => ⟨fun _ => hN1,
                  fun _ _ => hN1⟩⟩
          · have hweb' : m1.webActive = false := by simpa using hweb
            by_cases hlink : e.linkUp = true
            · have hv : stepState hashFn cfg m1 e = (m1, {}) := by
                simp [stepState, hstate, hreq, hweb', hres, hlink]
              rw [hv]
              exact ⟨hle, fun _ => ⟨hlow, hprov⟩⟩
            · have hlink' : e.linkUp = false := by simpa using hlink
              have hv : stepState hashFn cfg m1 e =
                  ({ m1 with retryCount := 0, state := .connecting }, {}) := by
                simp [stepState, hstate, hreq, hweb', hres, hlink']
              rw [hv]
              exact ⟨Nat.zero_le _, fun _ => ⟨fun _ => hN1, fun _ _ => hN1⟩⟩
  | retryWait =>
      have hcount : m1.retryCount < cfg.maxRetries :=
        hlow (Or.inr (Or.inr (Or.inr hstate)))
      by_cases ht : cfg.retryDelay <= u32sub e.now m1.lastRetryTime
      · have hmod : (m1.retryCount + 1) % U8 = m1.retryCount + 1 := by
          apply Nat.mod_eq_of_lt
          simp only [U8] at *
          omega
        by_cases hmax : cfg.maxRetries <= (m1.retryCount + 1) % U8
        · cases hap : cfg.autoWipeOnMaxRetries with
          | true =>
              have hv : stepState hashFn cfg m1 e =
                  ({ m1 with retryCount := (m1.retryCount + 1) % U8,
                             creds := clearAllCredentials e.clearOpenOk m1.creds,
                             state := .provisioning },
                    { failedFired := some ((m1.retryCount + 1) % U8) }) := by
                simp [stepState, hstate, ht, hmax, hap]
              rw [hv]
              refine ⟨?_, fun _ => ⟨fun hq => ?_, fun _ hss => ?_⟩⟩
              · show (m1.retryCount + 1) % U8 <= cfg.maxRetries
                rw [hmod]
                omega
              · rcases hq with hq | hq | hq | hq <;> simp at hq
              · exact absurd rfl hss
          | false =>
              have hv : stepState hashFn cfg m1 e =
                  ({ m1 with retryCount := 0, state := .connecting },
                    { failedFired := some ((m1.retryCount + 1) % U8) }) := by
                simp [stepState, hstate, ht, hmax, hap]
              rw [hv]
              exact ⟨Nat.zero_le _, fun _ => ⟨fun _ => hN1, fun _ _ => hN1⟩⟩
        · have hlt : (m1.retryCount + 1) % U8 < cfg.maxRetries := by omega
          have hv : stepState hashFn cfg m1 e =
              ({ m1 with retryCount := (m1.retryCount + 1) % U8,
                         state := .connecting }, {}) := by
            simp [stepState, hstate, ht, hmax]
          rw [hv]
          exact ⟨Nat.le_of_lt hlt, fun _ => ⟨fun _ => hlt, fun _ _ => hlt⟩⟩
      · have hv : stepState hashFn cfg m1 e = (m1, {}) := by
          simp [stepState, hstate, ht]
        rw [hv]
        exact ⟨hle, fun _ => ⟨hlow, hprov⟩⟩
  | provisioning =>
      have hv : stepState hashFn cfg m1 e =
          ({ m1 with
              creds := (if cfg.httpResetAuthRequired then
                  (loadResetPassword e.resetPwdLoadOk m1.creds).1
                else m1.creds),
              apActive := true, dnsActive := true, webActive := true,
              apStartTime := e.now % U32, state := .provisioningActive },
            { apModeFired := true }) := by
        simp [stepState, hstate]
      have hssid : (if cfg.httpResetAuthRequired then
          (loadResetPassword e.resetPwdLoadOk m1.creds).1
        else m1.creds).storedSSID = m1.creds.storedSSID := by
        by_cases hauth : cfg.httpResetAuthRequired = true
        · simp [hauth, loadResetPassword_ssid]
        · simp [hauth]
      rw [hv]
      refine ⟨hle, fun _ => ⟨fun hq => ?_, fun _ hss => ?_⟩⟩
      · rcases hq with hq | hq | hq | hq <;> simp at hq
      · refine hprov (Or.inl hstate) ?_
        rw [← hssid]
        exact hss
  | provisioningActive =>
      cases hreq : e.request with
      | none =>
          by_cases hto : 0 < cfg.apTimeout ∧
              cfg.apTimeout <= u32sub e.now m1.apStartTime
          · by_cases hssne : m1.creds.storedSSID ≠ ""
            · have hcount := hprov (Or.inr hstate) hssne
              have hv : stepState hashFn cfg m1 e =
                  ({ m1 with apActive := false, dnsActive := false,
                             webActive := false, state := .connecting },
                    {}) := by
                simp [stepState, hstate, hreq, hres, hto, hssne]
              rw [hv]
              exact ⟨hle, fun _ => ⟨fun _ => hcount, fun _ _ => hcount⟩⟩
            · have hsseq : m1.creds.storedSSID = "" := by simpa using hssne
              have hv : stepState hashFn cfg m1 e =
                  ({ m1 with apActive := false, dnsActive := false,
                             webActive := false }, {}) := by
                simp [stepState, hstate, hreq, hres, hto, hsseq]
              rw [hv]
              refine ⟨hle, fun _ => ⟨fun hq => ?_, fun _ hss => ?_⟩⟩
              · rcases hq with hq | hq | hq | hq <;> rw [hstate] at hq <;>
                  simp at hq
              · exact absurd hsseq hss
          · have hv : stepState hashFn cfg m1 e = (m1, {}) := by
              simp [stepState, hstate, hreq, hres, hto]
            rw [hv]
            exact ⟨hle, fun _ => ⟨hlow, hprov⟩⟩
      | some r =>
          by_cases hweb : m1.webActive = true
          · obtain ⟨hf1, hf2, hf3, hf4⟩ := serveProvisioning_frame hashFn cfg e r m1
            by_cases hr2 : (serveProvisioning hashFn cfg e r m1).1.restarted = true
            · have hv : stepState hashFn cfg m1 e =
                  serveProvisioning hashFn cfg e r m1 := by
                simp [stepState, hstate, hreq, hweb, hr2]
              rw [hv]
              exact ⟨by rw [hf1]; exact hle,
                fun hf => absurd hr2 (by simp [hf])⟩
            · have hr2' : (serveProvisioning hashFn cfg e r m1).1.restarted = false := by
                simpa using hr2
              have hcreds := hf4 hr2'
              by_cases hto : 0 < cfg.apTimeout ∧ cfg.apTimeout <=
                  u32sub e.now (serveProvisioning hashFn cfg e r m1).1.apStartTime
              · by_cases hssne :
                    (serveProvisioning hashFn cfg e r m1).1.creds.storedSSID ≠ ""
                · have hssne1 : m1.creds.storedSSID ≠ "" := by
                    rw [← hcreds]
                    exact hssne
                  have hcount := hprov (Or.inr hstate) hssne1
                  have hv : stepState hashFn cfg m1 e =
                      ({ (serveProvisioning hashFn cfg e r m1).1 with
                          apActive := false, dnsActive := false,
                          webActive := false, state := .connecting },
                        (serveProvisioning hashFn cfg e r m1).2) := by
                    simp [stepState, hstate, hreq, hweb, hr2', hto, hssne]
                  rw [hv]
                  refine ⟨?_, fun _ => ⟨fun _ => ?_, fun _ _ => ?_⟩⟩
                  · show (serveProvisioning hashFn cfg e r m1).1.retryCount <=
                      cfg.maxRetries
                    rw [hf1]
                    exact hle
                  · show (serveProvisioning hashFn cfg e r m1).1.retryCount <
                      cfg.maxRetries
                    rw [hf1]
                    exact hcount
                  · show (serveProvisioning hashFn cfg e r m1).1.retryCount <
                      cfg.maxRetries
                    rw [hf1]
                    exact hcount
                · have hsseq :
                      (serveProvisioning hashFn cfg e r m1).1.creds.storedSSID
                        = "" := by
                    simpa using hssne
                  have hv : stepState hashFn cfg m1 e =
                      ({ (serveProvisioning hashFn cfg e r m1).1 with
                          apActive := false, dnsActive := false,
                          webActive := false },
                        (serveProvisioning hashFn cfg e r m1).2) := by
                    simp [stepState, hstate, hreq, hweb, hr2', hto, hsseq]
                  rw [hv]
                  refine ⟨?_, fun _ => ⟨fun hq => ?_, fun _ hss => ?_⟩⟩
                  · show (serveProvisioning hashFn cfg e r m1).1.retryCount <=
                      cfg.maxRetries
                    rw [hf1]
                    exact hle
                  · rw [show ({ (serveProvisioning hashFn cfg e r m1).1 with
                        apActive := false, dnsActive := false,
                        webActive := false } : Machine).state =
                        (serveProvisioning hashFn cfg e r m1).1.state from rfl,
                      hf2, hstate] at hq
                    rcases hq with hq | hq | hq | hq <;> simp at hq
                  · exact absurd hsseq hss
              · have hv : stepState hashFn cfg m1 e =
                    serveProvisioning hashFn cfg e r m1 := by
                  simp [stepState, hstate, hreq, hweb, hr2', hto]
                rw [hv]
                refine ⟨by rw [hf1]; exact hle,
                  fun _ => ⟨fun hq => ?_, fun _ hss => ?_⟩⟩
                · rw [hf2, hstate] at hq
                  rcases hq with hq | hq | hq | hq <;> simp at hq
                · rw [hf1]
                  refine hprov (Or.inr hstate) ?_
                  rw [← hcreds]
                  exact hss
          · have hweb' : m1.webActive = false := by simpa using hweb
            by_cases hto : 0 < cfg.apTimeout ∧
                cfg.apTimeout <= u32sub e.now m1.apStartTime
            · by_cases hssne : m1.creds.storedSSID ≠ ""
              · have hcount := hprov (Or.inr hstate) hssne
                have hv : stepState hashFn cfg m1 e =
                    ({ m1 with apActive := false, dnsActive := false,
                               webActive := false, state := .connecting },
                      {}) := by
                  simp [stepState, hstate, hreq, hweb', hres, hto, hssne]
                rw [hv]
                exact ⟨hle, fun _ => ⟨fun _ => hcount, fun _ _ => hcount⟩⟩
              · have hsseq : m1.creds.storedSSID = "" := by simpa using hssne
                have hv : stepState hashFn cfg m1 e =
                    ({ m1 with apActive := false, dnsActive := false,
                               webActive := false }, {}) := by
                  simp [stepState, hstate, hreq, hweb', hres, hto, hsseq]
                rw [hv]
                refine ⟨hle, fun _ => ⟨fun hq => ?_, fun _ hss => ?_⟩⟩
                · rcases hq with hq | hq | hq | hq <;> rw [hstate] at hq <;>
                    simp at hq
                · exact absurd hsseq hss
            · have hv : stepState hashFn cfg m1 e = (m1, {}) := by
                simp [stepState, hstate, hreq, hweb', hres, hto]
              rw [hv]
              exact ⟨hle, fun _ => ⟨hlow, hprov⟩⟩

/-- One full loop() tick preserves the strengthened retry invariant. -/
theorem retryInv_tick (hashFn : String → String) (cfg : Config)
    (m : Machine) (e : Env)
    (hN1 : 1 <= cfg.maxRetries) (hN8 : cfg.maxRetries < U8)
    (h : RetryInv cfg m) :
    RetryInv cfg (tick hashFn cfg m e).1 := by
  by_cases hres : m.restarted = true
  · have hv : tick hashFn cfg m e = (m, {}) := by simp [tick, hres]
    rw [hv]
    exact h
  · have hres' : m.restarted = false := by simpa using hres
    cases hhw : cfg.hardwareResetEnabled with
    | false =>
        have hv : tick hashFn cfg m e = stepState hashFn cfg m e := by
          simp [tick, hres', hhw]
        rw [hv]
        exact retryInv_stepState hashFn cfg m e hN1 hN8 hres' h
    | true =>
        obtain ⟨hc1, hc2, hc3⟩ := checkHardwareReset_cases cfg e m
        by_cases hr1 : (checkHardwareReset cfg e m).1.restarted = true
        · have hv : tick hashFn cfg m e =
              ((checkHardwareReset cfg e m).1, { resetFired := true }) := by
            simp [tick, hres', hhw, hr1]
          rw [hv]
          exact ⟨by rw [hc1]; exact h.1, fun hf => by simp [hr1] at hf⟩
        · have hr1' : (checkHardwareReset cfg e m).1.restarted = false := by
            simpa using hr1
          rcases hc3 with hc3 | ⟨hc3a, hc3b⟩
          · exact absurd hc3 hr1
          · have hv : tick hashFn cfg m e =
                stepState hashFn cfg (checkHardwareReset cfg e m).1 e := by
              simp [tick, hres', hhw, hr1']
            rw [hv]
            apply retryInv_stepState hashFn cfg _ e hN1 hN8 hr1'
            obtain ⟨hlow, hprov⟩ := h.2 hres'
            refine ⟨by rw [hc1]; exact h.1, fun _ => ⟨fun hq => ?_, fun hq hss => ?_⟩⟩
            · rw [hc1]
              apply hlow
              rw [← hc2]
              exact hq
            · rw [hc1]
              apply hprov
              · rw [← hc2]
                exact hq
              · rw [show m.creds = (checkHardwareReset cfg e m).1.creds from hc3b.symm]
                exact hss

/-- The machine produced by the constructor plus begin() satisfies the
strengthened retry invariant. -/
theorem retryInv_start (cfg : Config) (nvs : Nvs) (openOk clearOpenOk : Bool)
    (now : Nat) (hN1 : 1 <= cfg.maxRetries) :
    RetryInv cfg (beginProv cfg openOk clearOpenOk now (initialMachine nvs)) := by
  refine ⟨Nat.zero_le _, fun _ => ⟨fun _ => hN1, fun _ _ => hN1⟩⟩

/-- Every tick-reachable machine satisfies the strengthened retry
invariant. -/
theorem retryInv_reachable (hashFn : String → String) (cfg : Config)
    (hN1 : 1 <= cfg.maxRetries) (hN8 : cfg.maxRetries < U8) :
    ∀ m, Reachable hashFn cfg m → RetryInv cfg m := by
  intro m hm
  induction hm with
  | start nvs openOk clearOpenOk now =>
      exact retryInv_start cfg nvs openOk clearOpenOk now hN1
  | step m e hm ih => exact retryInv_tick hashFn cfg m e hN1 hN8 ih

/-- Claim C9: with max_retries at least 1 (and representable in uint8),
the retry counter never exceeds max_retries in any machine reachable by
ticks from startup; moreover a LoadConfig tick that finds stored
credentials enters Connecting with the counter reset to 0, and a Connected
tick that detects connection loss does the same. -/
theorem retry_counter_invariant (hashFn : String → String) (cfg : Config)
    (hN1 : 1 <= cfg.maxRetries) (hN8 : cfg.maxRetries < U8) :
    (∀ m, Reachable hashFn cfg m → m.retryCount <= cfg.maxRetries) ∧
    (∀ m e, m.restarted = false → cfg.hardwareResetEnabled = false →
       m.state = .loadConfig →
       (loadCredentials e.loadOpenOk m.creds).2 = true →
       (tick hashFn cfg m e).1.retryCount = 0 ∧
       (tick hashFn cfg m e).1.state = .connecting) ∧
    (∀ m e, m.restarted = false → cfg.hardwareResetEnabled = false →
       m.state = .connected → e.request = none → e.linkUp = false →
       (tick hashFn cfg m e).1.retryCount = 0 ∧
       (tick hashFn cfg m e).1.state = .connecting) := by
  refine ⟨fun m hm => (retryInv_reachable hashFn cfg hN1 hN8 m hm).1, ?_, ?_⟩
  · intro m e hres hhw hst hlc
    have hv : tick hashFn cfg m e =
        ({ m with creds := (loadCredentials e.loadOpenOk m.creds).1,
                  retryCount := 0, state := .connecting }, {}) := by
      simp [tick, stepState, hres, hhw, hst, hlc]
    rw [hv]
    exact ⟨rfl, rfl⟩
  · intro m e hres hhw hst hreq hlink
    have hv : tick hashFn cfg m e =
        ({ m with retryCount := 0, state := .connecting }, {}) := by
      simp [tick, stepState, hres, hhw, hst, hreq, hlink]
    rw [hv]
    exact ⟨rfl, rfl⟩

/-- Claim C9 witness: at the default configuration (max_retries 10), the
startup machine is reachable and its retry counter is within the bound. -/
theorem retry_counter_invariant_witness :
    (beginProv {} true true 0 (initialMachine {})).retryCount <=
      ({} : Config).maxRetries :=
  (retry_counter_invariant id {} (by decide) (by decide)).1
    (beginProv {} true true 0 (initialMachine {}))
    (Reachable.start {} true true 0)

end WiFiProv
